import Mathlib

/-!
# Verification of the CPIC guideline RAG backend

Shallow embedding of the core services of the repository
(`backend/services/ingestion.py`, `rag.py`, `mongodb.py`, `phenotype.py`)
and proofs of the frozen claims about them.

Modelling conventions:
* Python dictionaries with optional keys become structures with `Option` fields;
  `dict.get(k, default)` becomes `Option.getD`.
* Python floats are modelled as exact rationals (`ℚ`); `round(x, n)` is modelled
  by `pyRound`, Python's round-half-to-even at `n` decimal digits.
* Exceptions are modelled with `Except String`; a function that may raise returns
  `Except String α` and a caught exception is an `Except.error` consumed locally.
* External collaborators (Mongo, FAISS, the agent tools, the parser, the LLM)
  are modelled by environment records carrying the outcome each collaborator
  would produce, and orchestrators additionally return a trace recording which
  collaborators they invoked.
-/

namespace GuidelineRAG

/-- Python's `str.strip()` with no argument: remove leading and trailing
whitespace.  Defined by structural recursion on the character list so that
proofs can evaluate it. -/
def strip (s : String) : String :=
  String.mk (((s.data.dropWhile Char.isWhitespace).reverse.dropWhile
    Char.isWhitespace).reverse)

/-- Python's `str.lower()`: lowercase every character. -/
def lower (s : String) : String :=
  String.mk (s.data.map Char.toLower)

/-- One raw element of the Unstructured.io parser output
(`elem` in `_elements_to_documents`, `ingestion.py`).  The source element is a
dict with keys `text`, `type` and a `metadata` sub-dict with keys `filename`
and `page_number`; absent keys are `none` (the source's `elem.get(k, default)`
becomes `Option.getD`).  The `metadata` sub-dict is flattened into the two
fields `filename` and `page_number`; `elem.get("metadata", \x7b\x7d)` with a
missing sub-key behaves exactly like both fields being `none`.  The source also
tolerates non-dict elements via `str(elem)`; elements are modelled as the dict
case, which is the shape the parser contract produces. -/
structure Element where
  text : Option String
  filename : Option String
  page_number : Option Nat
  etype : Option String
deriving DecidableEq, Repr

/-- Metadata attached to a LangChain `Document` built in
`_elements_to_documents` (`ingestion.py` lines 66–73). -/
structure DocMetadata where
  title : String
  page : Nat
  source : String
  drug : String
  gene : String
  element_type : String
deriving DecidableEq, Repr

/-- A LangChain `Document` as produced by `_elements_to_documents`. -/
structure Document where
  page_content : String
  metadata : DocMetadata
deriving DecidableEq, Repr

/-- `_elements_to_documents(elements, gene, drug)` from
`backend/services/ingestion.py` (lines 48–76): trim each element's text, drop
it when the trimmed text is falsy or shorter than 20 characters, and otherwise
emit one `Document` with the trimmed text and the metadata tag set built on
lines 66–73. -/
def elements_to_documents (elements : List Element) (gene drug : String) :
    List Document :=
  elements.filterMap (fun elem =>
    let text := strip (elem.text.getD "")
    if text = "" ∨ text.length < 20 then none
    else some
      { page_content := text
        metadata :=
          { title := elem.filename.getD (gene ++ "_" ++ drug)
            page := elem.page_number.getD 0
            source := "unstructured_api"
            drug := drug
            gene := gene
            element_type := elem.etype.getD "" } })

/-- The claim's keep-predicate, written from the spec's words: the
whitespace-trimmed text is non-empty and at least 20 characters long. -/
def keepElement (e : Element) : Bool :=
  let t := strip (e.text.getD "")
  decide (t ≠ "") && decide (20 ≤ t.length)

/-- C2: the chunk extractor keeps exactly the elements whose trimmed text is
non-empty and at least 20 characters long, produces one chunk per surviving
element carrying the trimmed text, and preserves the input order (hence no
deduplication or merging): the list of produced texts is exactly the filtered
input list mapped to its trimmed texts. -/
theorem elements_to_documents_keeps_exactly_long_elements
    (elements : List Element) (gene drug : String) :
    (elements_to_documents elements gene drug).map (fun d => d.page_content)
      = (elements.filter (fun e => keepElement e)).map
          (fun e => strip (e.text.getD "")) := by
  induction elements with
  | nil => rfl
  | cons e es ih =>
    simp only [elements_to_documents, List.filterMap_cons] at *
    by_cases h : (strip (e.text.getD "") = "" ∨ (strip (e.text.getD "")).length < 20)
    · have hk : keepElement e = false := by
        simp only [keepElement, Bool.and_eq_false_iff, decide_eq_false_iff_not,
          Decidable.not_not, not_le]
        rcases h with h | h
        · exact Or.inl h
        · exact Or.inr h
      simp only [if_pos h, List.filter_cons, hk, Bool.false_eq_true, if_false]
      simpa using ih
    · have hk : keepElement e = true := by
        push_neg at h
        simp only [keepElement, Bool.and_eq_true, decide_eq_true_eq]
        exact ⟨h.1, h.2⟩
      simp only [if_neg h, List.map_cons, List.filter_cons, hk, if_true]
      simpa using ih

/-- C5 counterexample: the provenance tag the extractor actually writes is
`"unstructured_api"` (the `source` key on line 69 of `ingestion.py`), not the
spec's `"parsed-pipeline"`: on a concrete element long enough to be kept, the
produced chunk's provenance value is `"unstructured_api"`, which differs from
`"parsed-pipeline"`. -/
theorem provenance_tag_is_unstructured_api :
    (elements_to_documents
        [{ text := some "This element text is long enough to keep."
           filename := none, page_number := none, etype := some "NarrativeText" }]
        "CYP2D6" "codeine").map (fun d => d.metadata.source)
      = ["unstructured_api"]
    ∧ "unstructured_api" ≠ "parsed-pipeline" :=
  ⟨by decide, by decide⟩

/-- C5 (amended): every chunk produced by the chunk extractor carries the gene
and drug tags, a title tag falling back to `gene ++ "_" ++ drug` when the source
element provides no filename, a page-number tag defaulting to 0 when absent, an
element-type tag, and a fixed provenance tag whose value is
`"unstructured_api"` (not `"parsed-pipeline"`), identifying the parsing
collaborator. -/
theorem elements_to_documents_tags
    (elements : List Element) (gene drug : String) (d : Document)
    (hd : d ∈ elements_to_documents elements gene drug) :
    d.metadata.gene = gene ∧ d.metadata.drug = drug ∧
    d.metadata.source = "unstructured_api" ∧
    ∃ e ∈ elements,
      d.metadata.title = e.filename.getD (gene ++ "_" ++ drug) ∧
      d.metadata.page = e.page_number.getD 0 ∧
      d.metadata.element_type = e.etype.getD "" := by
  simp only [elements_to_documents, List.mem_filterMap] at hd
  obtain ⟨e, he, hfe⟩ := hd
  by_cases h : (strip (e.text.getD "") = "" ∨ (strip (e.text.getD "")).length < 20)
  · simp [if_pos h] at hfe
  · simp only [if_neg h, Option.some.injEq] at hfe
    subst hfe
    exact ⟨rfl, rfl, rfl, e, he, rfl, rfl, rfl⟩

/-- Witness for `elements_to_documents_tags`: applies it to a concrete element
list with the membership hypothesis discharged by evaluation. -/
theorem elements_to_documents_tags_witness :
    ({ page_content := "This element text is long enough to keep."
       metadata :=
         { title := "CYP2D6_codeine", page := 0, source := "unstructured_api"
           drug := "codeine", gene := "CYP2D6"
           element_type := "NarrativeText" } } : Document).metadata.gene = "CYP2D6" ∧
    ({ page_content := "This element text is long enough to keep."
       metadata :=
         { title := "CYP2D6_codeine", page := 0, source := "unstructured_api"
           drug := "codeine", gene := "CYP2D6"
           element_type := "NarrativeText" } } : Document).metadata.drug = "codeine" ∧
    ({ page_content := "This element text is long enough to keep."
       metadata :=
         { title := "CYP2D6_codeine", page := 0, source := "unstructured_api"
           drug := "codeine", gene := "CYP2D6"
           element_type := "NarrativeText" } } : Document).metadata.source = "unstructured_api" ∧
    ∃ e ∈ [({ text := some "This element text is long enough to keep."
              filename := none, page_number := none
              etype := some "NarrativeText" } : Element)],
      ({ page_content := "This element text is long enough to keep."
         metadata :=
           { title := "CYP2D6_codeine", page := 0, source := "unstructured_api"
             drug := "codeine", gene := "CYP2D6"
             element_type := "NarrativeText" } } : Document).metadata.title
          = e.filename.getD ("CYP2D6" ++ "_" ++ "codeine") ∧
      ({ page_content := "This element text is long enough to keep."
         metadata :=
           { title := "CYP2D6_codeine", page := 0, source := "unstructured_api"
             drug := "codeine", gene := "CYP2D6"
             element_type := "NarrativeText" } } : Document).metadata.page
          = e.page_number.getD 0 ∧
      ({ page_content := "This element text is long enough to keep."
         metadata :=
           { title := "CYP2D6_codeine", page := 0, source := "unstructured_api"
             drug := "codeine", gene := "CYP2D6"
             element_type := "NarrativeText" } } : Document).metadata.element_type
          = e.etype.getD "" :=
  elements_to_documents_tags
    [{ text := some "This element text is long enough to keep."
       filename := none, page_number := none, etype := some "NarrativeText" }]
    "CYP2D6" "codeine" _ (by decide)

/-! ## Structured Store (`backend/services/mongodb.py`) -/

/-- One document of the `guidelines` collection, as written by
`store_guideline` (`mongodb.py` lines 51–60).  `created_at` is modelled as a
`Nat` timestamp and the Mongo-assigned `_id` as a `Nat`. -/
structure GuidelineRecord where
  gene : String
  drug : String
  title : String
  pdf_path : String
  chunks_count : Nat
  elements : List Element
  element_count : Nat
  created_at : Nat
  _id : Nat
deriving DecidableEq, Repr

/-- The match predicate of `get_guideline`'s Mongo query (`mongodb.py` lines
70–71): both fields are matched by the anchored regex `^…$` with the
case-insensitive option, i.e. (for literal gene/drug strings, which contain no
regex metacharacters) case-insensitive string equality. -/
def matchesPair (r : GuidelineRecord) (gene drug : String) : Bool :=
  lower r.gene == lower gene && lower r.drug == lower drug

/-- `find_one(..., sort=[("created_at", -1)])`: among the given records, one
whose `created_at` is maximal (`none` on the empty list).  Mongo does not
specify which document is returned when several share the maximal timestamp;
this model keeps the earliest such record. -/
def mostRecentFirst : List GuidelineRecord → Option GuidelineRecord
  | [] => none
  | r :: rs =>
    match mostRecentFirst rs with
    | none => some r
    | some b => if r.created_at < b.created_at then some b else some r

/-- `get_guideline(gene, drug)` from `backend/services/mongodb.py` (lines
67–73): `find_one` on a case-insensitive anchored-regex match of both fields,
sorted by `created_at` descending. -/
def get_guideline (db : List GuidelineRecord) (gene drug : String) :
    Option GuidelineRecord :=
  mostRecentFirst (db.filter (fun r => matchesPair r gene drug))

theorem mostRecentFirst_mem : ∀ {l : List GuidelineRecord}
    {r : GuidelineRecord}, mostRecentFirst l = some r → r ∈ l := by
  intro l
  induction l with
  | nil => intro r h; simp [mostRecentFirst] at h
  | cons a l ih =>
    intro r h
    cases hl : mostRecentFirst l with
    | none =>
      simp only [mostRecentFirst, hl, Option.some.injEq] at h
      simp [h]
    | some b =>
      simp only [mostRecentFirst, hl] at h
      by_cases hc : a.created_at < b.created_at
      · rw [if_pos hc, Option.some.injEq] at h
        subst h
        exact List.mem_cons_of_mem _ (ih hl)
      · rw [if_neg hc, Option.some.injEq] at h
        simp [h]

theorem mostRecentFirst_max : ∀ {l : List GuidelineRecord}
    {r : GuidelineRecord}, mostRecentFirst l = some r →
    ∀ x ∈ l, x.created_at ≤ r.created_at := by
  intro l
  induction l with
  | nil => intro r h; simp [mostRecentFirst] at h
  | cons a l ih =>
    intro r h x hx
    cases hl : mostRecentFirst l with
    | none =>
      simp only [mostRecentFirst, hl, Option.some.injEq] at h
      subst h
      rcases List.mem_cons.mp hx with hx | hx
      · simp [hx]
      · cases l with
        | nil => simp at hx
        | cons c cs =>
          exfalso
          cases hcs : mostRecentFirst cs with
          | none => simp [mostRecentFirst, hcs] at hl
          | some b =>
            simp only [mostRecentFirst, hcs] at hl
            by_cases hc : c.created_at < b.created_at
            · rw [if_pos hc] at hl; exact Option.noConfusion hl
            · rw [if_neg hc] at hl; exact Option.noConfusion hl
    | some b =>
      simp only [mostRecentFirst, hl] at h
      rcases List.mem_cons.mp hx with hx | hx
      · subst hx
        by_cases hc : x.created_at < b.created_at
        · rw [if_pos hc, Option.some.injEq] at h
          subst h
          exact le_of_lt hc
        · rw [if_neg hc, Option.some.injEq] at h
          subst h
          exact le_refl _
      · by_cases hc : a.created_at < b.created_at
        · rw [if_pos hc, Option.some.injEq] at h
          subst h
          exact ih hl x hx
        · rw [if_neg hc, Option.some.injEq] at h
          subst h
          exact le_trans (ih hl x hx) (not_lt.mp hc)

theorem mostRecentFirst_ne_none {l : List GuidelineRecord}
    (h : l ≠ []) : ∃ r, mostRecentFirst l = some r := by
  cases l with
  | nil => exact absurd rfl h
  | cons a l =>
    cases hl : mostRecentFirst l with
    | none => exact ⟨a, by simp [mostRecentFirst, hl]⟩
    | some b =>
      by_cases hc : a.created_at < b.created_at
      · exact ⟨b, by simp only [mostRecentFirst, hl]; rw [if_pos hc]⟩
      · exact ⟨a, by simp only [mostRecentFirst, hl]; rw [if_neg hc]⟩

/-- C6: the Structured Store lookup matches gene and drug case-insensitively —
querying with any case variants (same lowercasing) yields the same result, a
record whose pair matches case-insensitively is always found, the returned
record's creation timestamp is maximal among all matching records, and when the
matching record is unique it is the one returned. -/
theorem get_guideline_case_insensitive_most_recent :
    (∀ (db : List GuidelineRecord) (g₁ d₁ g₂ d₂ : String),
      lower g₁ = lower g₂ → lower d₁ = lower d₂ →
      get_guideline db g₁ d₁ = get_guideline db g₂ d₂)
    ∧ (∀ (db : List GuidelineRecord) (g d : String) (r : GuidelineRecord),
      r ∈ db → matchesPair r g d = true →
      ∃ r', get_guideline db g d = some r' ∧ r' ∈ db ∧
        matchesPair r' g d = true ∧
        ∀ x ∈ db, matchesPair x g d = true → x.created_at ≤ r'.created_at)
    ∧ (∀ (db : List GuidelineRecord) (g d : String) (r : GuidelineRecord),
      r ∈ db → matchesPair r g d = true →
      (∀ x ∈ db, matchesPair x g d = true → x = r) →
      get_guideline db g d = some r) := by
  have hmatch : ∀ (r : GuidelineRecord) (g₁ d₁ g₂ d₂ : String),
      lower g₁ = lower g₂ → lower d₁ = lower d₂ →
      matchesPair r g₁ d₁ = matchesPair r g₂ d₂ := by
    intro r g₁ d₁ g₂ d₂ hg hd
    simp [matchesPair, hg, hd]
  have hfind : ∀ (db : List GuidelineRecord) (g d : String) (r : GuidelineRecord),
      r ∈ db → matchesPair r g d = true →
      ∃ r', get_guideline db g d = some r' ∧ r' ∈ db ∧
        matchesPair r' g d = true ∧
        ∀ x ∈ db, matchesPair x g d = true → x.created_at ≤ r'.created_at := by
    intro db g d r hr hm
    have hne : db.filter (fun x => matchesPair x g d) ≠ [] := by
      intro hempty
      have : r ∈ db.filter (fun x => matchesPair x g d) :=
        List.mem_filter.mpr ⟨hr, hm⟩
      rw [hempty] at this
      simp at this
    obtain ⟨r', hr'⟩ := mostRecentFirst_ne_none hne
    have hmem := List.mem_filter.mp (mostRecentFirst_mem hr')
    refine ⟨r', hr', hmem.1, hmem.2, ?_⟩
    intro x hx hxm
    exact mostRecentFirst_max hr' x (List.mem_filter.mpr ⟨hx, hxm⟩)
  refine ⟨?_, hfind, ?_⟩
  · intro db g₁ d₁ g₂ d₂ hg hd
    unfold get_guideline
    congr 1
    exact List.filter_congr (fun x _ => hmatch x g₁ d₁ g₂ d₂ hg hd)
  · intro db g d r hr hm huniq
    obtain ⟨r', hget, hr'db, hr'm, _⟩ := hfind db g d r hr hm
    rw [hget, huniq r' hr'db hr'm]

/-- Witness for `get_guideline_case_insensitive_most_recent`: a one-record
store queried with a different case variant returns that record. -/
theorem get_guideline_case_insensitive_most_recent_witness :
    get_guideline
      [{ gene := "CYP2D6", drug := "Codeine", title := "t", pdf_path := "p"
         chunks_count := 3, elements := [], element_count := 0
         created_at := 7, _id := 1 }] "cyp2d6" "codeine"
      = some { gene := "CYP2D6", drug := "Codeine", title := "t", pdf_path := "p"
               chunks_count := 3, elements := [], element_count := 0
               created_at := 7, _id := 1 } :=
  get_guideline_case_insensitive_most_recent.2.2
    [{ gene := "CYP2D6", drug := "Codeine", title := "t", pdf_path := "p"
       chunks_count := 3, elements := [], element_count := 0
       created_at := 7, _id := 1 }] "cyp2d6" "codeine" _
    (by decide) (by decide) (by decide)

/-! ## Ingestion Orchestrator (`backend/services/ingestion.py`) -/

/-- The dict returned by `ingest_drug`: `status`, `message`, and the optional
`guideline_id` key (absent on the failure returns). -/
structure IngestResult where
  status : String
  message : String
  guideline_id : Option String
deriving DecidableEq, Repr

/-- Which collaborators an `ingest_drug` run invoked: the local PDF probe
(`_find_pdf`), the agent locate-and-fetch pipeline (`_fetch_guideline_pdf`,
wrapping the locator, link scraper and downloader), the parser
(`parse_pdf_with_unstructured`), the chunk extractor
(`_elements_to_documents`), the store-write (`store_guideline`) and the
embedding/index insert (`add_documents`). -/
structure IngestTrace where
  find_pdf_invoked : Bool
  agent_invoked : Bool
  parser_invoked : Bool
  extractor_invoked : Bool
  store_invoked : Bool
  embed_invoked : Bool
deriving DecidableEq, Repr

/-- Environment of one `ingest_drug` run: the current `guidelines` collection
and the outcome each external collaborator would produce if invoked.
`local_pdf` is `_find_pdf`'s result; `agent_pdf` is `_fetch_guideline_pdf`'s
result, which is `none` for every failure of the locator, scraper or
downloader since that function catches all exceptions (`ingestion.py` lines
100–105) and returns `None`.  `parse_result` is the parser call's outcome
(`Except.error` models a raised exception).  `store_error`/`embed_error` being
`some e` model `store_guideline`/`add_documents` raising `e`; on store success
the inserted Mongo id is `store_id`.  PDF paths are opaque strings (the
source's `pdf_path.name`/`pdf_path.stem` are modelled as the string itself). -/
structure IngestEnv where
  db : List GuidelineRecord
  local_pdf : Option String
  agent_pdf : Option String
  parse_result : Except String (List Element)
  store_error : Option String
  store_id : Nat
  embed_error : Option String
deriving Repr

/-- Steps 3–6 of `ingest_drug` (`ingestion.py` lines 161–208), once a PDF path
is in hand: parse (a raised exception or an empty element list is a caught
`failed` return), extract chunks (an empty result is a `failed` return), then
store and embed (an exception from either propagates, modelled as
`Except.error`). -/
def ingest_from_pdf (env : IngestEnv) (gene drug pdf_path : String)
    (agent : Bool) : Except String IngestResult × IngestTrace :=
  match env.parse_result with
  | Except.error e =>
    (Except.ok
      { status := "failed"
        message := "Unstructured.io API failed to parse '" ++ pdf_path ++ "': " ++ e
        guideline_id := none },
     { find_pdf_invoked := true, agent_invoked := agent, parser_invoked := true
       extractor_invoked := false, store_invoked := false, embed_invoked := false })
  | Except.ok elements =>
    if elements.isEmpty then
      (Except.ok
        { status := "failed"
          message := "Unstructured.io returned no elements for '" ++ pdf_path ++ "'."
          guideline_id := none },
       { find_pdf_invoked := true, agent_invoked := agent, parser_invoked := true
         extractor_invoked := false, store_invoked := false, embed_invoked := false })
    else
      let docs := elements_to_documents elements gene drug
      if docs.isEmpty then
        (Except.ok
          { status := "failed"
            message := "No meaningful text extracted from '" ++ pdf_path ++ "'."
            guideline_id := none },
         { find_pdf_invoked := true, agent_invoked := agent, parser_invoked := true
           extractor_invoked := true, store_invoked := false, embed_invoked := false })
      else
        match env.store_error with
        | some e =>
          (Except.error e,
           { find_pdf_invoked := true, agent_invoked := agent, parser_invoked := true
             extractor_invoked := true, store_invoked := true, embed_invoked := false })
        | none =>
          let guideline_id := gene ++ "_" ++ drug ++ "_" ++ toString env.store_id
          match env.embed_error with
          | some e =>
            (Except.error e,
             { find_pdf_invoked := true, agent_invoked := agent, parser_invoked := true
               extractor_invoked := true, store_invoked := true, embed_invoked := true })
          | none =>
            (Except.ok
              { status := "completed"
                message := "Fetched, parsed, and ingested '" ++ pdf_path ++ "': " ++
                  toString elements.length ++ " elements → " ++
                  toString docs.length ++ " chunks embedded."
                guideline_id := some guideline_id },
             { find_pdf_invoked := true, agent_invoked := agent, parser_invoked := true
               extractor_invoked := true, store_invoked := true, embed_invoked := true })

/-- `ingest_drug(gene, drug)` from `backend/services/ingestion.py` (lines
123–208).  Step 1: the idempotency check against the Structured Store, whose
hit returns `completed` immediately.  Step 2: probe for a local PDF, else run
the agent pipeline; if neither yields a PDF, return `failed`.  Steps 3–6 are
`ingest_from_pdf`. -/
def ingest_drug (env : IngestEnv) (gene drug : String) :
    Except String IngestResult × IngestTrace :=
  match get_guideline env.db gene drug with
  | some existing =>
    (Except.ok
      { status := "completed"
        message := "Guideline for " ++ gene ++ "/" ++ drug ++
          " is already ingested (" ++ toString existing.chunks_count ++ " chunks)."
        guideline_id := some (gene ++ "_" ++ drug ++ "_" ++ toString existing._id) },
     { find_pdf_invoked := false, agent_invoked := false, parser_invoked := false
       extractor_invoked := false, store_invoked := false, embed_invoked := false })
  | none =>
    match env.local_pdf with
    | some pdf_path => ingest_from_pdf env gene drug pdf_path false
    | none =>
      match env.agent_pdf with
      | some pdf_path => ingest_from_pdf env gene drug pdf_path true
      | none =>
        (Except.ok
          { status := "failed"
            message := "Could not find or fetch a guideline PDF for '" ++ gene ++
              "/" ++ drug ++ "'. The gene-drug pair may not exist in the CPIC database."
            guideline_id := none },
         { find_pdf_invoked := true, agent_invoked := true, parser_invoked := false
           extractor_invoked := false, store_invoked := false, embed_invoked := false })

/-- C1: when the Structured Store already holds a record for the pair, a
second `ingest_drug` call returns `completed` with a message reporting the
existing record's chunk count and a guideline id built from the existing
record's store id, and invokes none of the collaborators: not the PDF probe,
not the agent locator pipeline, not the parser, not the chunk extractor, not
the store-write and not the index insert. -/
theorem ingest_drug_idempotent (env : IngestEnv) (gene drug : String)
    (existing : GuidelineRecord)
    (h : get_guideline env.db gene drug = some existing) :
    ingest_drug env gene drug =
      (Except.ok
        { status := "completed"
          message := "Guideline for " ++ gene ++ "/" ++ drug ++
            " is already ingested (" ++ toString existing.chunks_count ++ " chunks)."
          guideline_id := some (gene ++ "_" ++ drug ++ "_" ++ toString existing._id) },
       { find_pdf_invoked := false, agent_invoked := false, parser_invoked := false
         extractor_invoked := false, store_invoked := false, embed_invoked := false }) := by
  unfold ingest_drug
  rw [h]

/-- Witness for `ingest_drug_idempotent` on a concrete one-record store. -/
theorem ingest_drug_idempotent_witness :
    ingest_drug
      { db := [{ gene := "CYP2D6", drug := "codeine", title := "t", pdf_path := "p"
                 chunks_count := 3, elements := [], element_count := 0
                 created_at := 7, _id := 42 }]
        local_pdf := none, agent_pdf := none
        parse_result := Except.ok [], store_error := none, store_id := 0
        embed_error := none } "CYP2D6" "codeine" =
      (Except.ok
        { status := "completed"
          message := "Guideline for " ++ "CYP2D6" ++ "/" ++ "codeine" ++
            " is already ingested (" ++ toString (3 : Nat) ++ " chunks)."
          guideline_id := some ("CYP2D6" ++ "_" ++ "codeine" ++ "_" ++ toString (42 : Nat)) },
       { find_pdf_invoked := false, agent_invoked := false, parser_invoked := false
         extractor_invoked := false, store_invoked := false, embed_invoked := false }) :=
  ingest_drug_idempotent _ "CYP2D6" "codeine"
    { gene := "CYP2D6", drug := "codeine", title := "t", pdf_path := "p"
      chunks_count := 3, elements := [], element_count := 0
      created_at := 7, _id := 42 } (by decide)

theorem ingest_drug_with_pdf (env : IngestEnv) (gene drug pdf : String)
    (hg : get_guideline env.db gene drug = none)
    (hp : env.local_pdf = some pdf ∨ (env.local_pdf = none ∧ env.agent_pdf = some pdf)) :
    ingest_drug env gene drug
      = ingest_from_pdf env gene drug pdf env.local_pdf.isNone := by
  unfold ingest_drug
  rw [hg]
  rcases hp with hp | ⟨hl, ha⟩
  · rw [hp]; rfl
  · rw [hl, ha]; rfl

/-- C7: the error handling of `ingest_drug` splits exactly as claimed.  Every
PDF-location failure (the locator, scraper and downloader failures are all
caught inside `_fetch_guideline_pdf` and surface as an absent PDF), a parser
exception, an empty parser result, and an empty chunk extraction each return a
structured `failed` result normally (`Except.ok`, no exception to the caller);
whereas an exception from the store-write (`store_guideline`) or from the
embedding/index insert (`add_documents`) propagates out of `ingest_drug`
uncaught (`Except.error`). -/
theorem ingest_drug_error_handling :
    (∀ (env : IngestEnv) (gene drug : String),
      get_guideline env.db gene drug = none →
      env.local_pdf = none → env.agent_pdf = none →
      ∃ msg, (ingest_drug env gene drug).1
        = Except.ok { status := "failed", message := msg, guideline_id := none })
    ∧ (∀ (env : IngestEnv) (gene drug pdf e : String),
      get_guideline env.db gene drug = none →
      (env.local_pdf = some pdf ∨ (env.local_pdf = none ∧ env.agent_pdf = some pdf)) →
      env.parse_result = Except.error e →
      ∃ msg, (ingest_drug env gene drug).1
        = Except.ok { status := "failed", message := msg, guideline_id := none })
    ∧ (∀ (env : IngestEnv) (gene drug pdf : String),
      get_guideline env.db gene drug = none →
      (env.local_pdf = some pdf ∨ (env.local_pdf = none ∧ env.agent_pdf = some pdf)) →
      env.parse_result = Except.ok [] →
      ∃ msg, (ingest_drug env gene drug).1
        = Except.ok { status := "failed", message := msg, guideline_id := none })
    ∧ (∀ (env : IngestEnv) (gene drug pdf : String) (elements : List Element),
      get_guideline env.db gene drug = none →
      (env.local_pdf = some pdf ∨ (env.local_pdf = none ∧ env.agent_pdf = some pdf)) →
      env.parse_result = Except.ok elements → elements ≠ [] →
      elements_to_documents elements gene drug = [] →
      ∃ msg, (ingest_drug env gene drug).1
        = Except.ok { status := "failed", message := msg, guideline_id := none })
    ∧ (∀ (env : IngestEnv) (gene drug pdf e : String) (elements : List Element),
      get_guideline env.db gene drug = none →
      (env.local_pdf = some pdf ∨ (env.local_pdf = none ∧ env.agent_pdf = some pdf)) →
      env.parse_result = Except.ok elements → elements ≠ [] →
      elements_to_documents elements gene drug ≠ [] →
      env.store_error = some e →
      (ingest_drug env gene drug).1 = Except.error e)
    ∧ (∀ (env : IngestEnv) (gene drug pdf e : String) (elements : List Element),
      get_guideline env.db gene drug = none →
      (env.local_pdf = some pdf ∨ (env.local_pdf = none ∧ env.agent_pdf = some pdf)) →
      env.parse_result = Except.ok elements → elements ≠ [] →
      elements_to_documents elements gene drug ≠ [] →
      env.store_error = none → env.embed_error = some e →
      (ingest_drug env gene drug).1 = Except.error e) := by
  refine ⟨?_, ?_, ?_, ?_, ?_, ?_⟩
  · intro env gene drug hg hl ha
    unfold ingest_drug
    rw [hg, hl, ha]
    exact ⟨_, rfl⟩
  · intro env gene drug pdf e hg hp hparse
    rw [ingest_drug_with_pdf env gene drug pdf hg hp]
    unfold ingest_from_pdf
    rw [hparse]
    exact ⟨_, rfl⟩
  · intro env gene drug pdf hg hp hparse
    rw [ingest_drug_with_pdf env gene drug pdf hg hp]
    unfold ingest_from_pdf
    rw [hparse]
    exact ⟨_, rfl⟩
  · intro env gene drug pdf elements hg hp hparse hne hdocs
    rw [ingest_drug_with_pdf env gene drug pdf hg hp]
    unfold ingest_from_pdf
    rw [hparse]
    simp only [List.isEmpty_iff, hne, hdocs, ite_false, ite_true, if_neg, if_pos]
    simp [hne, hdocs]
  · intro env gene drug pdf e elements hg hp hparse hne hdocs hstore
    rw [ingest_drug_with_pdf env gene drug pdf hg hp]
    unfold ingest_from_pdf
    rw [hparse, hstore]
    simp [hne, hdocs]
  · intro env gene drug pdf e elements hg hp hparse hne hdocs hstore hembed
    rw [ingest_drug_with_pdf env gene drug pdf hg hp]
    unfold ingest_from_pdf
    rw [hparse, hstore, hembed]
    simp [hne, hdocs]

/-- Witness for `ingest_drug_error_handling`: each of the six branches applied
to a concrete environment. -/
theorem ingest_drug_error_handling_witness :
    (∃ msg, (ingest_drug
        { db := [], local_pdf := none, agent_pdf := none
          parse_result := Except.ok [], store_error := none, store_id := 0
          embed_error := none } "CYP2D6" "codeine").1
      = Except.ok { status := "failed", message := msg, guideline_id := none })
    ∧ (∃ msg, (ingest_drug
        { db := [], local_pdf := some "codeine.pdf", agent_pdf := none
          parse_result := Except.error "boom", store_error := none, store_id := 0
          embed_error := none } "CYP2D6" "codeine").1
      = Except.ok { status := "failed", message := msg, guideline_id := none })
    ∧ (∃ msg, (ingest_drug
        { db := [], local_pdf := none, agent_pdf := some "codeine.pdf"
          parse_result := Except.ok [], store_error := none, store_id := 0
          embed_error := none } "CYP2D6" "codeine").1
      = Except.ok { status := "failed", message := msg, guideline_id := none })
    ∧ (∃ msg, (ingest_drug
        { db := [], local_pdf := some "codeine.pdf", agent_pdf := none
          parse_result := Except.ok [{ text := some "tiny", filename := none
                                       page_number := none, etype := none }]
          store_error := none, store_id := 0
          embed_error := none } "CYP2D6" "codeine").1
      = Except.ok { status := "failed", message := msg, guideline_id := none })
    ∧ ((ingest_drug
        { db := [], local_pdf := some "codeine.pdf", agent_pdf := none
          parse_result := Except.ok [{ text := some "This element text is long enough to keep."
                                       filename := none, page_number := none, etype := none }]
          store_error := some "mongo down", store_id := 0
          embed_error := none } "CYP2D6" "codeine").1 = Except.error "mongo down")
    ∧ ((ingest_drug
        { db := [], local_pdf := some "codeine.pdf", agent_pdf := none
          parse_result := Except.ok [{ text := some "This element text is long enough to keep."
                                       filename := none, page_number := none, etype := none }]
          store_error := none, store_id := 0
          embed_error := some "faiss down" } "CYP2D6" "codeine").1 = Except.error "faiss down") :=
  ⟨ingest_drug_error_handling.1 _ "CYP2D6" "codeine" rfl rfl rfl,
   ingest_drug_error_handling.2.1 _ "CYP2D6" "codeine" "codeine.pdf" "boom" rfl
     (Or.inl rfl) rfl,
   ingest_drug_error_handling.2.2.1 _ "CYP2D6" "codeine" "codeine.pdf" rfl
     (Or.inr ⟨rfl, rfl⟩) rfl,
   ingest_drug_error_handling.2.2.2.1 _ "CYP2D6" "codeine" "codeine.pdf" _ rfl
     (Or.inl rfl) rfl (by decide) (by decide),
   ingest_drug_error_handling.2.2.2.2.1 _ "CYP2D6" "codeine" "codeine.pdf"
     "mongo down" _ rfl (Or.inl rfl) rfl (by decide) (by decide) rfl,
   ingest_drug_error_handling.2.2.2.2.2 _ "CYP2D6" "codeine" "codeine.pdf"
     "faiss down" _ rfl (Or.inl rfl) rfl (by decide) (by decide) rfl rfl⟩

/-! ## Answer Orchestrator (`backend/services/rag.py`)

Python floats are modelled as exact rationals; `round(x, n)` is `pyRound`. -/

/-- Round a rational to the nearest integer, half to even (Python's `round`
for floats, restricted to exact values). -/
def pyRoundInt (y : ℚ) : ℤ :=
  if y - ⌊y⌋ < 1/2 then ⌊y⌋
  else if 1/2 < y - ⌊y⌋ then ⌊y⌋ + 1
  else if ⌊y⌋ % 2 = 0 then ⌊y⌋ else ⌊y⌋ + 1

/-- Python's `round(x, n)`: scale by `10 ^ n`, round half to even, scale
back. -/
def pyRound (x : ℚ) (n : Nat) : ℚ :=
  (pyRoundInt (x * 10 ^ n) : ℚ) / 10 ^ n

/-- The distance-to-similarity conversion on line 84 of `rag.py`:
`similarity = 1.0 / (1.0 + float(score))`. -/
def similarity (distance : ℚ) : ℚ := 1 / (1 + distance)

/-- The confidence computation on lines 101–103 of `rag.py`: the mean of the
top-k similarity scores (0.0 for an empty list), scaled by 1.2 and capped at
1.0. -/
def confidence_of (raw_scores : List ℚ) : ℚ :=
  let avg_score :=
    if raw_scores.isEmpty then 0 else raw_scores.sum / (raw_scores.length : ℚ)
  min 1 (avg_score * (1.2 : ℚ))

/-- Python's `s[:300]`-style character-count prefix. -/
def takeChars (s : String) (n : Nat) : String := String.mk (s.data.take n)

/-- Metadata of a document coming back from the FAISS store; `doc.metadata` is
a dict, read with `.get(key, default)`, so every key is optional. -/
structure RagMeta where
  title : Option String
  page : Option Nat
  element_type : Option String
deriving DecidableEq, Repr

/-- A document returned by `similarity_search_with_score`. -/
structure RagDoc where
  page_content : String
  metadata : RagMeta
deriving DecidableEq, Repr

/-- One entry of the `sources` list built on lines 88–95 of `rag.py`.  The
field `sect` models the dict key `"section"` (a reserved word in Lean). -/
structure Source where
  title : String
  page : Nat
  sect : Option String
  snippet : String
  text : String
  score : ℚ
deriving DecidableEq, Repr

/-- The source-citation entry built for one retrieved `(doc, score)` pair
(`rag.py` lines 81–95); `score` is the raw FAISS distance of the pair. -/
def source_entry (doc : RagDoc) (score : ℚ) : Source :=
  { title := doc.metadata.title.getD "Unknown"
    page := doc.metadata.page.getD 0
    sect := doc.metadata.element_type
    snippet := takeChars doc.page_content 300
    text := takeChars doc.page_content 300
    score := pyRound (similarity score) 3 }

/-- Environment of one `query_rag` run: `vectorstore` is `none` when the FAISS
index has never been created (`get_vectorstore` returns `None`,
`embeddings.py` lines 30–41), and otherwise carries the `(doc, distance)`
pairs `similarity_search_with_score(full_question, k=5)` would return for this
query; `llm_answer` is the text the LLM collaborator would produce, and
`llm_model` is `settings.LLM_MODEL`. -/
structure RagEnv where
  vectorstore : Option (List (RagDoc × ℚ))
  llm_answer : String
  llm_model : String
deriving Repr

/-- The dict returned by `query_rag`. -/
structure RagResult where
  answer : String
  sources : List Source
  confidence : ℚ
  model_used : String
deriving DecidableEq, Repr

/-- Which collaborators a `query_rag` run invoked: the retrieval
(`similarity_search_with_score`) and the language model (`llm.invoke`). -/
structure RagTrace where
  retriever_invoked : Bool
  llm_invoked : Bool
deriving DecidableEq, Repr

/-- `query_rag(gene, drug, question)` from `backend/services/rag.py` (lines
53–120).  The context string and prompt built for the LLM are not modelled;
the LLM's output is returned verbatim as the answer. -/
def query_rag (env : RagEnv) (gene drug question : String) :
    RagResult × RagTrace :=
  match env.vectorstore with
  | none =>
    ({ answer := "No guidelines have been indexed yet. Please ingest a guideline first."
       sources := [], confidence := 0, model_used := "none" },
     { retriever_invoked := false, llm_invoked := false })
  | some docs_and_scores =>
    if docs_and_scores.isEmpty then
      ({ answer := "No relevant guideline sections found for your query."
         sources := [], confidence := 0, model_used := env.llm_model },
       { retriever_invoked := true, llm_invoked := false })
    else
      let raw_scores := docs_and_scores.map (fun p => similarity p.2)
      let sources := docs_and_scores.map (fun p => source_entry p.1 p.2)
      let confidence := confidence_of raw_scores
      ({ answer := env.llm_answer, sources := sources
         confidence := pyRound confidence 2, model_used := env.llm_model },
       { retriever_invoked := true, llm_invoked := true })

/-- C8: when the Similarity Index has never been created, `query_rag` returns
the fixed "no guidelines indexed" answer with confidence exactly 0 and an
empty sources list, for every question, without raising and without invoking
the retrieval or the language-model collaborator. -/
theorem query_rag_uninitialized (env : RagEnv) (gene drug question : String)
    (h : env.vectorstore = none) :
    query_rag env gene drug question =
      ({ answer := "No guidelines have been indexed yet. Please ingest a guideline first."
         sources := [], confidence := 0, model_used := "none" },
       { retriever_invoked := false, llm_invoked := false }) := by
  unfold query_rag
  rw [h]

theorem pyRoundInt_le_of_le {y : ℚ} {c : ℤ} (h : y ≤ (c : ℚ)) :
    pyRoundInt y ≤ c := by
  have hf : ⌊y⌋ ≤ c := by
    have hfc := Int.floor_le_floor h
    simpa using hfc
  unfold pyRoundInt
  by_cases h1 : y - ⌊y⌋ < 1/2
  · rw [if_pos h1]; exact hf
  · rw [if_neg h1]
    have hr : (1:ℚ)/2 ≤ y - ⌊y⌋ := not_lt.mp h1
    have hlt : ⌊y⌋ < c := by
      have hcast : (⌊y⌋ : ℚ) < (c : ℚ) := by linarith
      exact_mod_cast hcast
    by_cases h2 : (1:ℚ)/2 < y - ⌊y⌋
    · rw [if_pos h2]; exact hlt
    · rw [if_neg h2]
      by_cases h3 : ⌊y⌋ % 2 = 0
      · rw [if_pos h3]; exact hf
      · rw [if_neg h3]; exact hlt

theorem pyRound_le_one {x : ℚ} (n : Nat) (h : x ≤ 1) : pyRound x n ≤ 1 := by
  unfold pyRound
  have hm0 : (0:ℚ) < (10:ℚ)^n := by positivity
  have hcast : (((10:ℤ)^n : ℤ) : ℚ) = (10:ℚ)^n := by push_cast; ring
  have hy : x * (10:ℚ)^n ≤ (((10:ℤ)^n : ℤ) : ℚ) := by
    rw [hcast]
    nlinarith
  have hk := pyRoundInt_le_of_le hy
  rw [div_le_one hm0]
  calc (pyRoundInt (x * (10:ℚ)^n) : ℚ) ≤ (((10:ℤ)^n : ℤ) : ℚ) := by exact_mod_cast hk
    _ = (10:ℚ)^n := hcast

/-- C3: in the answer pipeline each retrieval distance is converted by the
exact formula `similarity = 1 / (1 + d)` (the reported per-source score is
that similarity rounded to 3 decimals); the transform is strictly decreasing
on nonnegative distances, maps distance 0 to similarity exactly 1, and on
nonnegative distances its output lies in the interval (0, 1]. -/
theorem similarity_transform :
    (∀ d : ℚ, similarity d = 1 / (1 + d))
    ∧ (∀ d₁ d₂ : ℚ, 0 ≤ d₁ → d₁ < d₂ → similarity d₂ < similarity d₁)
    ∧ similarity 0 = 1
    ∧ (∀ d : ℚ, 0 ≤ d → 0 < similarity d ∧ similarity d ≤ 1)
    ∧ (∀ (env : RagEnv) (gene drug question : String) (vs : List (RagDoc × ℚ)),
      env.vectorstore = some vs → vs ≠ [] →
      (query_rag env gene drug question).1.sources.map (fun s => s.score)
        = vs.map (fun p => pyRound (similarity p.2) 3)) := by
  refine ⟨fun d => rfl, ?_, ?_, ?_, ?_⟩
  · intro d₁ d₂ h0 hlt
    unfold similarity
    exact one_div_lt_one_div_of_lt (by linarith) (by linarith)
  · unfold similarity; norm_num
  · intro d h0
    unfold similarity
    refine ⟨one_div_pos.mpr (by linarith), ?_⟩
    rw [div_le_one (by linarith)]
    linarith
  · intro env gene drug question vs h hne
    unfold query_rag
    rw [h]
    simp [List.isEmpty_iff, hne, source_entry]

/-- Witness for `similarity_transform`: each conjunct at concrete inputs. -/
theorem similarity_transform_witness :
    similarity 0 = 1 / (1 + 0)
    ∧ similarity 1 < similarity 0
    ∧ similarity 0 = 1
    ∧ (0 < similarity 3 ∧ similarity 3 ≤ 1)
    ∧ ((query_rag
          { vectorstore := some [({ page_content := "t"
                                    metadata := { title := none, page := none
                                                  element_type := none } }, (0:ℚ))]
            llm_answer := "a", llm_model := "m" } "g" "d" "q").1.sources.map
          (fun s => s.score)
        = [(({ page_content := "t"
               metadata := { title := none, page := none
                             element_type := none } } : RagDoc), (0:ℚ))].map
            (fun p => pyRound (similarity p.2) 3)) :=
  ⟨similarity_transform.1 0,
   similarity_transform.2.1 0 1 (by decide) (by decide),
   similarity_transform.2.2.1,
   similarity_transform.2.2.2.1 3 (by decide),
   similarity_transform.2.2.2.2 _ "g" "d" "q" _ rfl (by simp)⟩

/-- C4: for a non-empty retrieval whose similarities lie in [0, 1], the
confidence returned by the answer pipeline equals
`min(1.0, mean(similarities) * 1.2)` rounded to 2 decimal places, and never
exceeds 1. -/
theorem query_rag_confidence_bound (env : RagEnv)
    (gene drug question : String) (vs : List (RagDoc × ℚ))
    (h : env.vectorstore = some vs) (hne : vs ≠ [])
    (hrange : ∀ p ∈ vs, 0 ≤ similarity p.2 ∧ similarity p.2 ≤ 1) :
    (query_rag env gene drug question).1.confidence
      = pyRound (min 1 (((vs.map (fun p => similarity p.2)).sum
          / ((vs.map (fun p => similarity p.2)).length : ℚ)) * (1.2 : ℚ))) 2
    ∧ (query_rag env gene drug question).1.confidence ≤ 1 := by
  have hconf : (query_rag env gene drug question).1.confidence
      = pyRound (confidence_of (vs.map (fun p => similarity p.2))) 2 := by
    unfold query_rag
    rw [h]
    simp [List.isEmpty_iff, hne]
  have hne' : vs.map (fun p => similarity p.2) ≠ [] := by
    simpa using hne
  constructor
  · rw [hconf]
    unfold confidence_of
    congr 2
    simp [List.isEmpty_iff, hne']
  · rw [hconf]
    exact pyRound_le_one 2 (min_le_left _ _)

/-- Witness for `query_rag_confidence_bound`: two chunks at distance 0, whose
similarities are both 1, so the mean times 1.2 exceeds 1 and the confidence is
capped. -/
theorem query_rag_confidence_bound_witness :
    (query_rag
        { vectorstore := some [({ page_content := "t"
                                  metadata := { title := none, page := none
                                                element_type := none } }, (0:ℚ)),
                               ({ page_content := "u"
                                  metadata := { title := none, page := none
                                                element_type := none } }, (0:ℚ))]
          llm_answer := "a", llm_model := "m" } "g" "d" "q").1.confidence
      = pyRound (min 1
          ((([(({ page_content := "t"
                  metadata := { title := none, page := none
                                element_type := none } } : RagDoc), (0:ℚ)),
              (({ page_content := "u"
                  metadata := { title := none, page := none
                                element_type := none } } : RagDoc), (0:ℚ))].map
              (fun p => similarity p.2)).sum
            / (([(({ page_content := "t"
                     metadata := { title := none, page := none
                                   element_type := none } } : RagDoc), (0:ℚ)),
                 (({ page_content := "u"
                     metadata := { title := none, page := none
                                   element_type := none } } : RagDoc), (0:ℚ))].map
                (fun p => similarity p.2)).length : ℚ)) * (1.2 : ℚ))) 2
    ∧ (query_rag
        { vectorstore := some [({ page_content := "t"
                                  metadata := { title := none, page := none
                                                element_type := none } }, (0:ℚ)),
                               ({ page_content := "u"
                                  metadata := { title := none, page := none
                                                element_type := none } }, (0:ℚ))]
          llm_answer := "a", llm_model := "m" } "g" "d" "q").1.confidence ≤ 1 :=
  query_rag_confidence_bound _ "g" "d" "q" _ rfl (by simp)
    (by simp [similarity])

/-- Witness for `query_rag_uninitialized` on a concrete environment. -/
theorem query_rag_uninitialized_witness :
    query_rag { vectorstore := none, llm_answer := "a", llm_model := "m" }
        "CYP2D6" "codeine" "What is the dose?" =
      ({ answer := "No guidelines have been indexed yet. Please ingest a guideline first."
         sources := [], confidence := 0, model_used := "none" },
       { retriever_invoked := false, llm_invoked := false }) :=
  query_rag_uninitialized _ "CYP2D6" "codeine" "What is the dose?" rfl

/-! ## Phenotype Resolver (`backend/services/phenotype.py`) -/

/-- One diplotype row as returned by the CPIC API and cached in Mongo
(`phenotype.py`); `lookup_phenotype` reads every key with `.get`, so all
fields are optional. -/
structure DiplotypeRow where
  diplotype : Option String
  generesult : Option String
  totalactivityscore : Option String
  consultationtext : Option String
  ehrpriority : Option String
  description : Option String
deriving DecidableEq, Repr

/-- The dict returned by `lookup_phenotype`.  `ehr_priority` and `description`
are `none` exactly when the key is absent from the returned dict (the
gene-not-found and diplotype-not-found branches omit both keys). -/
structure PhenotypeResult where
  gene : String
  diplotype : String
  phenotype : String
  activity_score : Option ℚ
  recommendation : String
  ehr_priority : Option String
  description : Option String
deriving DecidableEq, Repr

/-- Decimal digit string to a natural number. -/
def digitsToNat (cs : List Char) : Nat :=
  cs.foldl (fun n c => n * 10 + (c.toNat - 48)) 0

/-- Best-effort model of Python's `float(s)` on the activity-score strings the
CPIC API returns (plain decimal literals such as `"2"` or `"1.5"`, with an
optional sign and surrounding whitespace): anything else fails, modelling the
`ValueError` that `lookup_phenotype` catches to leave the score absent.
Exponent forms and `inf`/`nan`, which the dataset does not use, also fail. -/
def parseFloat (s : String) : Option ℚ :=
  let core : List Char → Option ℚ := fun cs =>
    let ip := cs.takeWhile (fun c => c ≠ '.')
    let rest := cs.dropWhile (fun c => c ≠ '.')
    match rest with
    | [] =>
      if ¬ip.isEmpty ∧ ip.all Char.isDigit then some (digitsToNat ip : ℚ)
      else none
    | '.' :: frac =>
      if ip.isEmpty ∧ frac.isEmpty then none
      else if ip.all Char.isDigit ∧ frac.all Char.isDigit then
        some ((digitsToNat ip : ℚ) + (digitsToNat frac : ℚ) / (10:ℚ) ^ frac.length)
      else none
    | _ => none
  match (strip s).data with
  | '-' :: cs => (core cs).map (fun q => -q)
  | '+' :: cs => core cs
  | cs => core cs

/-- `lookup_phenotype(gene, diplotype)` from `backend/services/phenotype.py`
(lines 82–127), with the fetched-or-cached rows for the gene
(`_get_diplotypes`' result) supplied as `rows`: an empty row set is the
gene-not-found result; otherwise the query is normalized with
`.lower().strip()` and compared for equality against each row's equally
normalized `diplotype`; no match is the diplotype-not-found result; a match
fills the result from the first matching row. -/
def lookup_phenotype (rows : List DiplotypeRow) (gene diplotype : String) :
    PhenotypeResult :=
  if rows.isEmpty then
    { gene := gene, diplotype := diplotype
      phenotype := "Gene not found in CPIC database"
      activity_score := none
      recommendation := "No diplotype data available for " ++ gene ++ "."
      ehr_priority := none, description := none }
  else
    match rows.find?
        (fun row => strip (lower (row.diplotype.getD "")) == strip (lower diplotype)) with
    | none =>
      { gene := gene, diplotype := diplotype
        phenotype := "Diplotype not found"
        activity_score := none
        recommendation := "No phenotype mapping found for " ++ gene ++ " " ++
          diplotype ++ " in CPIC."
        ehr_priority := none, description := none }
    | some m =>
      { gene := gene, diplotype := diplotype
        phenotype := m.generesult.getD "Unknown"
        activity_score := parseFloat (m.totalactivityscore.getD "")
        recommendation := m.consultationtext.getD ""
        ehr_priority := some (m.ehrpriority.getD "")
        description := some (m.description.getD "") }

/-- C9 counterexample: the diplotype match is not insensitive to interior
whitespace.  The query `"*1/ *1"` differs from the stored `"*1/*1"` only in
whitespace (deleting every space from both, lowercased, gives equal strings),
yet `lookup_phenotype` reports `"Diplotype not found"` instead of matching the
row. -/
theorem lookup_phenotype_interior_whitespace_counterexample :
    lower (String.mk ((lower "*1/ *1").data.filter (fun c => ¬c.isWhitespace)))
      = lower (String.mk ((lower "*1/*1").data.filter (fun c => ¬c.isWhitespace)))
    ∧ (lookup_phenotype
        [{ diplotype := some "*1/*1", generesult := some "Normal Metabolizer"
           totalactivityscore := some "2", consultationtext := some "c"
           ehrpriority := some "p", description := some "d" }]
        "CYP2D6" "*1/ *1").phenotype = "Diplotype not found" :=
  ⟨by decide, by decide⟩

/-- C9 (amended): the diplotype match is exact after normalizing both sides
with `.lower().strip()`, i.e. case-insensitive and insensitive to leading and
trailing (not interior) whitespace: the resulting phenotype and activity
score depend only on the normalized query, a row whose normalized diplotype
equals the normalized query is always matched (the result is filled from the
first such row), and
an empty row set (gene unknown) or an unmatched diplotype each produce their
distinct explanatory result with `activity_score` absent, not an error. -/
theorem lookup_phenotype_normalized_match :
    (∀ (rows : List DiplotypeRow) (gene q₁ q₂ : String),
      strip (lower q₁) = strip (lower q₂) →
      (lookup_phenotype rows gene q₁).phenotype
          = (lookup_phenotype rows gene q₂).phenotype
      ∧ (lookup_phenotype rows gene q₁).activity_score
          = (lookup_phenotype rows gene q₂).activity_score)
    ∧ (∀ (rows : List DiplotypeRow) (gene q : String) (row : DiplotypeRow),
      row ∈ rows →
      strip (lower (row.diplotype.getD "")) = strip (lower q) →
      ∃ m ∈ rows, strip (lower (m.diplotype.getD "")) = strip (lower q)
        ∧ (lookup_phenotype rows gene q).phenotype = m.generesult.getD "Unknown"
        ∧ (lookup_phenotype rows gene q).activity_score
            = parseFloat (m.totalactivityscore.getD "")
        ∧ (lookup_phenotype rows gene q).recommendation
            = m.consultationtext.getD "")
    ∧ (∀ gene q : String, lookup_phenotype [] gene q =
        { gene := gene, diplotype := q
          phenotype := "Gene not found in CPIC database"
          activity_score := none
          recommendation := "No diplotype data available for " ++ gene ++ "."
          ehr_priority := none, description := none })
    ∧ (∀ (rows : List DiplotypeRow) (gene q : String), rows ≠ [] →
      (∀ row ∈ rows, strip (lower (row.diplotype.getD "")) ≠ strip (lower q)) →
      lookup_phenotype rows gene q =
        { gene := gene, diplotype := q
          phenotype := "Diplotype not found"
          activity_score := none
          recommendation := "No phenotype mapping found for " ++ gene ++ " " ++
            q ++ " in CPIC."
          ehr_priority := none, description := none }) := by
  refine ⟨?_, ?_, fun gene q => rfl, ?_⟩
  · intro rows gene q₁ q₂ hq
    unfold lookup_phenotype
    by_cases h : rows.isEmpty
    · rw [if_pos h, if_pos h]
      exact ⟨rfl, rfl⟩
    · rw [if_neg h, if_neg h, hq]
      cases rows.find?
          (fun row => strip (lower (row.diplotype.getD "")) == strip (lower q₂)) with
      | none => exact ⟨rfl, rfl⟩
      | some m => exact ⟨rfl, rfl⟩
  · intro rows gene q row hrow hnorm
    have hne : ¬rows.isEmpty := by
      cases rows with
      | nil => simp at hrow
      | cons a l => simp
    have hsome : (rows.find?
        (fun r => strip (lower (r.diplotype.getD "")) == strip (lower q))).isSome := by
      rw [List.find?_isSome]
      exact ⟨row, hrow, by simp [hnorm]⟩
    obtain ⟨m, hm⟩ := Option.isSome_iff_exists.mp hsome
    have hres : lookup_phenotype rows gene q =
        { gene := gene, diplotype := q
          phenotype := m.generesult.getD "Unknown"
          activity_score := parseFloat (m.totalactivityscore.getD "")
          recommendation := m.consultationtext.getD ""
          ehr_priority := some (m.ehrpriority.getD "")
          description := some (m.description.getD "") } := by
      unfold lookup_phenotype
      rw [if_neg hne, hm]
    refine ⟨m, List.mem_of_find?_eq_some hm, ?_, ?_, ?_, ?_⟩
    · have hp := List.find?_some hm
      simpa using hp
    · rw [hres]
    · rw [hres]
    · rw [hres]
  · intro rows gene q hrows hnone
    have hne : ¬rows.isEmpty := by simp [List.isEmpty_iff, hrows]
    have hfind : rows.find?
        (fun r => strip (lower (r.diplotype.getD "")) == strip (lower q)) = none := by
      rw [List.find?_eq_none]
      intro x hx
      simp [hnone x hx]
    unfold lookup_phenotype
    rw [if_neg hne, hfind]

/-- Witness for `lookup_phenotype_normalized_match`: its four parts applied to
concrete rows and queries (a case variant with surrounding whitespace matches;
an unknown gene and an unknown diplotype give their explanatory results). -/
theorem lookup_phenotype_normalized_match_witness :
    ((lookup_phenotype [] "CYP2D6" "*1/*1").phenotype
        = (lookup_phenotype [] "CYP2D6" " *1/*1 ").phenotype
      ∧ (lookup_phenotype [] "CYP2D6" "*1/*1").activity_score
        = (lookup_phenotype [] "CYP2D6" " *1/*1 ").activity_score)
    ∧ (∃ m ∈ [({ diplotype := some "*1A/*2B", generesult := some "Normal Metabolizer"
                 totalactivityscore := some "2", consultationtext := some "c"
                 ehrpriority := some "p", description := some "d" } : DiplotypeRow)],
        strip (lower (m.diplotype.getD "")) = strip (lower "  *1a/*2b ")
        ∧ (lookup_phenotype
            [{ diplotype := some "*1A/*2B", generesult := some "Normal Metabolizer"
               totalactivityscore := some "2", consultationtext := some "c"
               ehrpriority := some "p", description := some "d" }]
            "CYP2D6" "  *1a/*2b ").phenotype = m.generesult.getD "Unknown"
        ∧ (lookup_phenotype
            [{ diplotype := some "*1A/*2B", generesult := some "Normal Metabolizer"
               totalactivityscore := some "2", consultationtext := some "c"
               ehrpriority := some "p", description := some "d" }]
            "CYP2D6" "  *1a/*2b ").activity_score
            = parseFloat (m.totalactivityscore.getD "")
        ∧ (lookup_phenotype
            [{ diplotype := some "*1A/*2B", generesult := some "Normal Metabolizer"
               totalactivityscore := some "2", consultationtext := some "c"
               ehrpriority := some "p", description := some "d" }]
            "CYP2D6" "  *1a/*2b ").recommendation = m.consultationtext.getD "")
    ∧ (lookup_phenotype [] "CYP2D6" "*1/*1" =
        { gene := "CYP2D6", diplotype := "*1/*1"
          phenotype := "Gene not found in CPIC database"
          activity_score := none
          recommendation := "No diplotype data available for " ++ "CYP2D6" ++ "."
          ehr_priority := none, description := none })
    ∧ (lookup_phenotype
          [{ diplotype := some "*1/*1", generesult := some "Normal Metabolizer"
             totalactivityscore := some "2", consultationtext := some "c"
             ehrpriority := some "p", description := some "d" }]
          "CYP2D6" "*9/*9" =
        { gene := "CYP2D6", diplotype := "*9/*9"
          phenotype := "Diplotype not found"
          activity_score := none
          recommendation := "No phenotype mapping found for " ++ "CYP2D6" ++ " " ++
            "*9/*9" ++ " in CPIC."
          ehr_priority := none, description := none }) :=
  ⟨lookup_phenotype_normalized_match.1 [] "CYP2D6" "*1/*1" " *1/*1 " (by decide),
   lookup_phenotype_normalized_match.2.1
     [{ diplotype := some "*1A/*2B", generesult := some "Normal Metabolizer"
        totalactivityscore := some "2", consultationtext := some "c"
        ehrpriority := some "p", description := some "d" }]
     "CYP2D6" "  *1a/*2b " _ (List.mem_singleton.mpr rfl) (by decide),
   lookup_phenotype_normalized_match.2.2.1 "CYP2D6" "*1/*1",
   lookup_phenotype_normalized_match.2.2.2
     [{ diplotype := some "*1/*1", generesult := some "Normal Metabolizer"
        totalactivityscore := some "2", consultationtext := some "c"
        ehrpriority := some "p", description := some "d" }]
     "CYP2D6" "*9/*9" (by simp) (by decide)⟩

/-- C10: on every branch — gene not found, diplotype not found, or a
successful match — `lookup_phenotype` echoes the caller's gene and diplotype
strings verbatim (not normalized) in the `gene` and `diplotype` fields of the
result, which by its type always carries `phenotype`, `activity_score` and
`recommendation` fields. -/
theorem lookup_phenotype_echoes_inputs (rows : List DiplotypeRow)
    (gene diplotype : String) :
    (lookup_phenotype rows gene diplotype).gene = gene
    ∧ (lookup_phenotype rows gene diplotype).diplotype = diplotype := by
  unfold lookup_phenotype
  split
  · exact ⟨rfl, rfl⟩
  · split <;> exact ⟨rfl, rfl⟩

end GuidelineRAG
